import Mathlib

/-!
Shallow embedding of `sn_exercise.py` (class `SNExercise`), a small
cosmological distance calculator, together with proofs of the spec's claims.

Modelling conventions:
* Python floats are modelled as real numbers (`ℝ`); `numpy.sqrt` is
  `Real.sqrt`, `x ** y` for real exponents is `Real.rpow`, `numpy.log10`
  is `Real.logb 10`.
* A method that can raise `ValueError` returns `Except String ℝ`, the
  error payload being the literal message raised by the Python code.
* The optional Python arguments (default `None`) are modelled as
  `Option ℝ` arguments; the Python falsy test `if not omega_m:` treats
  both `None` and `0` as absent, and is modelled accordingly.
* A numpy array of redshifts is modelled as `List ℝ`; the broadcasting
  pipeline is modelled by the `_list` variants, which apply the same
  arithmetic elementwise and perform the collection-wide
  `(d_l <= 0).any()` reduction of `distance_modulus`.
-/

/-- State of an `SNExercise` instance: the redshift set at construction and
the two configuration constants `h` and `omega_m` loaded from the YAML file. -/
structure SNExercise where
  redshift_range : ℝ
  h : ℝ
  omega_m : ℝ

/-- Embedding of `SNExercise.calculate_parameter_s`.  Mirrors the source:
`if not omega_m:` falls back to the stored value when the argument is `None`
or (falsy) `0`; then `if omega_m == 0: raise ValueError(...)`; otherwise
returns `((1 - omega_m) / omega_m) ** (1 / 3)`. -/
noncomputable def SNExercise.calculate_parameter_s (self : SNExercise)
    (omega_m : Option ℝ) : Except String ℝ :=
  let ω : ℝ :=
    match omega_m with
    | none => self.omega_m
    | some x => if x = 0 then self.omega_m else x
  if ω = 0 then Except.error "omega_m cannot be zero."
  else Except.ok (((1 - ω) / ω) ^ ((1 : ℝ) / 3))

/-- Embedding of `SNExercise.calculate_scale_factor`: defaults the redshift
to the stored one when the argument is `None`, then returns `1 / (1 + z)`. -/
noncomputable def SNExercise.calculate_scale_factor (self : SNExercise)
    (redshift_range : Option ℝ) : ℝ :=
  let z := redshift_range.getD self.redshift_range
  1 / (1 + z)

/-- Embedding of `SNExercise.conformal_time`.  Resolves the `None` defaults,
computes `s` via `calculate_parameter_s` (propagating its `ValueError`),
`a` via `calculate_scale_factor`, and returns
`2 * sqrt(s^3 + 1) * multiplicand ** (-1/8)` with the source's multiplicand. -/
noncomputable def SNExercise.conformal_time (self : SNExercise)
    (redshift_range omega_m : Option ℝ) : Except String ℝ :=
  let z := redshift_range.getD self.redshift_range
  let ω := omega_m.getD self.omega_m
  match self.calculate_parameter_s (some ω) with
  | Except.error e => Except.error e
  | Except.ok s =>
      let a := self.calculate_scale_factor (some z)
      let multiplier := 2 * Real.sqrt (s ^ 3 + 1)
      let multiplicand :=
        1 / a ^ 4 - 0.1540 * s / a ^ 3 + 0.4304 * s ^ 2 / a ^ 2 +
          0.19097 * s ^ 3 / a + 0.066941 * s ^ 4
      Except.ok (multiplier * multiplicand ^ (-(1 : ℝ) / 8))

/-- Embedding of `SNExercise.luminosity_distance`: evaluates `conformal_time`
at redshift `0` and at the requested redshift (same `omega_m`) and returns
`3000 * (z + 1) * (eta_a1 - eta_z)`, propagating any raised error. -/
noncomputable def SNExercise.luminosity_distance (self : SNExercise)
    (redshift_range omega_m : Option ℝ) : Except String ℝ :=
  let z := redshift_range.getD self.redshift_range
  let ω := omega_m.getD self.omega_m
  match self.conformal_time (some 0) (some ω) with
  | Except.error e => Except.error e
  | Except.ok eta_a1 =>
      match self.conformal_time (some z) (some ω) with
      | Except.error e => Except.error e
      | Except.ok eta_z => Except.ok (3000 * (z + 1) * (eta_a1 - eta_z))

/-- Embedding of `SNExercise.distance_modulus` on a scalar redshift:
computes the luminosity distance, raises
`ValueError("All luminosity distances must be positive for valid log computation.")`
when it is `≤ 0` (the scalar form of `(d_l <= 0).any()`), and otherwise
returns `25 - 5 * log10 h + 5 * log10 d_l`. -/
noncomputable def SNExercise.distance_modulus (self : SNExercise)
    (redshift_range omega_m h : Option ℝ) : Except String ℝ :=
  let z := redshift_range.getD self.redshift_range
  let ω := omega_m.getD self.omega_m
  let hh := h.getD self.h
  match self.luminosity_distance (some z) (some ω) with
  | Except.error e => Except.error e
  | Except.ok d_l =>
      if d_l ≤ 0 then
        Except.error "All luminosity distances must be positive for valid log computation."
      else
        Except.ok (25 - 5 * Real.logb 10 hh + 5 * Real.logb 10 d_l)

/-- Embedding of `conformal_time` applied to a numpy array of redshifts:
`s` is a scalar, and the remaining arithmetic broadcasts elementwise. -/
noncomputable def SNExercise.conformal_time_list (self : SNExercise)
    (zs : List ℝ) (omega_m : Option ℝ) : Except String (List ℝ) :=
  let ω := omega_m.getD self.omega_m
  match self.calculate_parameter_s (some ω) with
  | Except.error e => Except.error e
  | Except.ok s =>
      Except.ok (zs.map (fun z =>
        let a := self.calculate_scale_factor (some z)
        let multiplier := 2 * Real.sqrt (s ^ 3 + 1)
        let multiplicand :=
          1 / a ^ 4 - 0.1540 * s / a ^ 3 + 0.4304 * s ^ 2 / a ^ 2 +
            0.19097 * s ^ 3 / a + 0.066941 * s ^ 4
        multiplier * multiplicand ^ (-(1 : ℝ) / 8)))

/-- Embedding of `luminosity_distance` applied to a numpy array of redshifts:
`eta_a1` is the scalar value at redshift `0`, `eta_z` the elementwise array,
and `3000 * (z + 1) * (eta_a1 - eta_z)` broadcasts elementwise. -/
noncomputable def SNExercise.luminosity_distance_list (self : SNExercise)
    (zs : List ℝ) (omega_m : Option ℝ) : Except String (List ℝ) :=
  let ω := omega_m.getD self.omega_m
  match self.conformal_time (some 0) (some ω) with
  | Except.error e => Except.error e
  | Except.ok eta_a1 =>
      match self.conformal_time_list zs (some ω) with
      | Except.error e => Except.error e
      | Except.ok etas =>
          Except.ok ((zs.zip etas).map (fun p => 3000 * (p.1 + 1) * (eta_a1 - p.2)))

open Classical

/-- Embedding of `distance_modulus` applied to a numpy array of redshifts:
the guard is the collection-wide reduction `(luminosity_distance <= 0).any()`,
and the modulus formula broadcasts elementwise on success. -/
noncomputable def SNExercise.distance_modulus_list (self : SNExercise)
    (zs : List ℝ) (omega_m h : Option ℝ) : Except String (List ℝ) :=
  let ω := omega_m.getD self.omega_m
  let hh := h.getD self.h
  match self.luminosity_distance_list zs (some ω) with
  | Except.error e => Except.error e
  | Except.ok ds =>
      if ∃ d ∈ ds, d ≤ 0 then
        Except.error "All luminosity distances must be positive for valid log computation."
      else
        Except.ok (ds.map (fun d => 25 - 5 * Real.logb 10 hh + 5 * Real.logb 10 d))

/-! Spec-side closed forms, written from the spec's formulas, to be compared
with the embedded methods. -/

/-- The spec's `s` parameter: `s = ((1 - Ω_m) / Ω_m)^(1/3)`. -/
noncomputable def sval (Ω : ℝ) : ℝ := ((1 - Ω) / Ω) ^ ((1 : ℝ) / 3)

/-- The spec's conformal time `eta(z, Ω_m)`:
`2 * sqrt(s^3 + 1) * (a^-4 - 0.1540 s a^-3 + 0.4304 s^2 a^-2 + 0.19097 s^3 a^-1 + 0.066941 s^4)^(-1/8)`
with `s = sval Ω` and `a = 1 / (1 + z)`. -/
noncomputable def etaSpec (z Ω : ℝ) : ℝ :=
  let s := sval Ω
  let a := 1 / (1 + z)
  2 * Real.sqrt (s ^ 3 + 1) *
    (1 / a ^ 4 - 0.1540 * s / a ^ 3 + 0.4304 * s ^ 2 / a ^ 2 +
      0.19097 * s ^ 3 / a + 0.066941 * s ^ 4) ^ (-(1 : ℝ) / 8)

/-- The spec's luminosity distance `d_L(z) = 3000 * (z + 1) * (eta(0) - eta(z))`. -/
noncomputable def dLSpec (z Ω : ℝ) : ℝ := 3000 * (z + 1) * (etaSpec 0 Ω - etaSpec z Ω)

/-- A concrete instance for witnesses (stored redshift 1, `h = 0.7`,
`omega_m = 0.3`, the values of `sn_parameters.yaml` suggested by the spec). -/
noncomputable def sn0 : SNExercise := ⟨1, 7 / 10, 3 / 10⟩

/-! Bridging lemmas from the embedded methods to the spec-side closed forms. -/

/-- For a nonzero explicit argument, `calculate_parameter_s` succeeds and
returns the closed form `sval`. -/
theorem calculate_parameter_s_ok (self : SNExercise) (Ω : ℝ) (hΩ : Ω ≠ 0) :
    self.calculate_parameter_s (some Ω) = Except.ok (sval Ω) := by
  simp [SNExercise.calculate_parameter_s, hΩ, sval]

/-- `calculate_scale_factor` with an explicit redshift is `1 / (1 + z)`. -/
theorem calculate_scale_factor_eq (self : SNExercise) (z : ℝ) :
    self.calculate_scale_factor (some z) = 1 / (1 + z) := rfl

/-- For a nonzero explicit `Ω`, `conformal_time` succeeds with value `etaSpec`. -/
theorem conformal_time_ok (self : SNExercise) (z Ω : ℝ) (hΩ : Ω ≠ 0) :
    self.conformal_time (some z) (some Ω) = Except.ok (etaSpec z Ω) := by
  simp [SNExercise.conformal_time, calculate_parameter_s_ok self Ω hΩ,
    SNExercise.calculate_scale_factor, etaSpec]

/-- For a nonzero explicit `Ω`, the array `conformal_time` succeeds with the
elementwise `etaSpec` values. -/
theorem conformal_time_list_ok (self : SNExercise) (zs : List ℝ) (Ω : ℝ) (hΩ : Ω ≠ 0) :
    self.conformal_time_list zs (some Ω) = Except.ok (zs.map (fun z => etaSpec z Ω)) := by
  simp [SNExercise.conformal_time_list, calculate_parameter_s_ok self Ω hΩ,
    SNExercise.calculate_scale_factor, etaSpec]

/-- For a nonzero explicit `Ω`, `luminosity_distance` succeeds with value `dLSpec`. -/
theorem luminosity_distance_ok (self : SNExercise) (z Ω : ℝ) (hΩ : Ω ≠ 0) :
    self.luminosity_distance (some z) (some Ω) = Except.ok (dLSpec z Ω) := by
  simp [SNExercise.luminosity_distance, conformal_time_ok self _ Ω hΩ, dLSpec]

/-- For a nonzero explicit `Ω`, the array `luminosity_distance` succeeds with
the elementwise `dLSpec` values. -/
theorem luminosity_distance_list_ok (self : SNExercise) (zs : List ℝ) (Ω : ℝ)
    (hΩ : Ω ≠ 0) :
    self.luminosity_distance_list zs (some Ω) =
      Except.ok (zs.map (fun z => dLSpec z Ω)) := by
  have h0 := conformal_time_ok self 0 Ω hΩ
  have hl := conformal_time_list_ok self zs Ω hΩ
  simp only [SNExercise.luminosity_distance_list, Option.getD_some, h0, hl]
  congr 1
  clear h0 hl
  induction zs with
  | nil => rfl
  | cons a t ih => simpa [dLSpec] using ih

/-! Claim theorems. -/

/-- C1: the spec claims that calling `calculate_parameter_s` with the argument
`0` raises the zero-density `ValueError` regardless of the stored `omega_m`.
The code's falsy test `if not omega_m:` replaces an explicit `0` argument by
the stored value before the guard runs, so on an instance whose stored
`omega_m` is `0.3` the call returns `((1 - 0.3) / 0.3) ** (1/3)` instead of
raising: the code contradicts the claim (and the evident intent of its own
`omega_m == 0` guard and docstring). -/
theorem calculate_parameter_s_zero_arg_no_error :
    sn0.calculate_parameter_s (some 0) =
      Except.ok (((1 - 3 / 10) / (3 / 10) : ℝ) ^ ((1 : ℝ) / 3)) := by
  norm_num [SNExercise.calculate_parameter_s, sn0]

/-- C3: an explicit falsy `omega_m` argument (`0` or `None`) is discarded in
favour of the stored instance value, so the call with argument `0` behaves
exactly like the call with no argument, the zero-density error occurs iff the
stored `omega_m` is `0`, and a nonzero explicit argument is used as given and
never raises. -/
theorem calculate_parameter_s_falsy_fallback (self : SNExercise) (x : ℝ)
    (hx : x ≠ 0) :
    self.calculate_parameter_s (some 0) = self.calculate_parameter_s none ∧
    (self.calculate_parameter_s (some 0) = Except.error "omega_m cannot be zero." ↔
      self.omega_m = 0) ∧
    self.calculate_parameter_s (some x) =
      Except.ok (((1 - x) / x) ^ ((1 : ℝ) / 3)) := by
  refine ⟨by simp [SNExercise.calculate_parameter_s], ?_, ?_⟩
  · by_cases h : self.omega_m = 0 <;> simp [SNExercise.calculate_parameter_s, h]
  · simp [SNExercise.calculate_parameter_s, hx]

/-- Witness for C3 at `x = 5` on the concrete instance `sn0`. -/
theorem calculate_parameter_s_falsy_fallback_wit :
    (5 : ℝ) ≠ 0 ∧
    sn0.calculate_parameter_s (some 5) =
      Except.ok (((1 - 5) / 5 : ℝ) ^ ((1 : ℝ) / 3)) :=
  ⟨by norm_num, (calculate_parameter_s_falsy_fallback sn0 5 (by norm_num)).2.2⟩

/-- C7: for `0 < Ω_m < 1`, `calculate_parameter_s` returns
`((1 - Ω_m) / Ω_m) ^ (1/3)`, and that value is strictly positive. -/
theorem calculate_parameter_s_formula_pos (self : SNExercise) (Ω : ℝ)
    (h0 : 0 < Ω) (h1 : Ω < 1) :
    self.calculate_parameter_s (some Ω) =
      Except.ok (((1 - Ω) / Ω) ^ ((1 : ℝ) / 3)) ∧
    0 < ((1 - Ω) / Ω) ^ ((1 : ℝ) / 3) := by
  refine ⟨calculate_parameter_s_ok self Ω h0.ne', ?_⟩
  exact Real.rpow_pos_of_pos (div_pos (by linarith) h0) _

/-- Witness for C7 at `Ω_m = 0.3`. -/
theorem calculate_parameter_s_formula_pos_wit :
    (0 : ℝ) < 3 / 10 ∧ (3 / 10 : ℝ) < 1 ∧
    sn0.calculate_parameter_s (some (3 / 10)) =
      Except.ok (((1 - 3 / 10) / (3 / 10) : ℝ) ^ ((1 : ℝ) / 3)) :=
  ⟨by norm_num, by norm_num,
    (calculate_parameter_s_formula_pos sn0 (3 / 10) (by norm_num) (by norm_num)).1⟩

/-- C8: `calculate_scale_factor` returns `1 / (1 + z)`; for `z ≥ 0` this lies
in `(0, 1]`, and at `z = 0` it equals `1` exactly. -/
theorem calculate_scale_factor_props (self : SNExercise) (z : ℝ) (hz : 0 ≤ z) :
    self.calculate_scale_factor (some z) = 1 / (1 + z) ∧
    0 < self.calculate_scale_factor (some z) ∧
    self.calculate_scale_factor (some z) ≤ 1 ∧
    self.calculate_scale_factor (some 0) = 1 := by
  have h1 : (0 : ℝ) < 1 + z := by linarith
  refine ⟨rfl, ?_, ?_, by norm_num [SNExercise.calculate_scale_factor]⟩
  · rw [calculate_scale_factor_eq]; positivity
  · rw [calculate_scale_factor_eq, div_le_one h1]; linarith

/-- Witness for C8 at `z = 3`. -/
theorem calculate_scale_factor_props_wit :
    (0 : ℝ) ≤ 3 ∧ sn0.calculate_scale_factor (some 3) = 1 / (1 + 3) :=
  ⟨by norm_num, (calculate_scale_factor_props sn0 3 (by norm_num)).1⟩

/-- C4: for `z ≠ -1` and `0 < Ω_m < 1`, `conformal_time` returns
`2 * sqrt(s^3 + 1) * (a^-4 - 0.1540 s a^-3 + 0.4304 s^2 a^-2 + 0.19097 s^3 a^-1 + 0.066941 s^4)^(-1/8)`
with `s = sval Ω_m = ((1 - Ω_m)/Ω_m)^(1/3)` and `a = 1 / (1 + z)`, the four
fit coefficients appearing literally. -/
theorem conformal_time_formula (self : SNExercise) (z Ω : ℝ) (hz : z ≠ -1)
    (h0 : 0 < Ω) (h1 : Ω < 1) :
    self.conformal_time (some z) (some Ω) =
      Except.ok (2 * Real.sqrt (sval Ω ^ 3 + 1) *
        (1 / (1 / (1 + z)) ^ 4 - 0.1540 * sval Ω / (1 / (1 + z)) ^ 3 +
          0.4304 * sval Ω ^ 2 / (1 / (1 + z)) ^ 2 +
          0.19097 * sval Ω ^ 3 / (1 / (1 + z)) +
          0.066941 * sval Ω ^ 4) ^ (-(1 : ℝ) / 8)) := by
  rw [conformal_time_ok self z Ω h0.ne']; rfl

/-- Witness for C4 at `z = 3`, `Ω_m = 1/2`. -/
theorem conformal_time_formula_wit :
    (3 : ℝ) ≠ -1 ∧ (0 : ℝ) < 1 / 2 ∧ (1 / 2 : ℝ) < 1 ∧
    sn0.conformal_time (some 3) (some (1 / 2)) =
      Except.ok (2 * Real.sqrt (sval (1 / 2) ^ 3 + 1) *
        (1 / (1 / (1 + 3)) ^ 4 - 0.1540 * sval (1 / 2) / (1 / (1 + 3)) ^ 3 +
          0.4304 * sval (1 / 2) ^ 2 / (1 / (1 + 3)) ^ 2 +
          0.19097 * sval (1 / 2) ^ 3 / (1 / (1 + 3)) +
          0.066941 * sval (1 / 2) ^ 4) ^ (-(1 : ℝ) / 8)) :=
  ⟨by norm_num, by norm_num, by norm_num,
    conformal_time_formula sn0 3 (1 / 2) (by norm_num) (by norm_num) (by norm_num)⟩

/-- C5: for `0 < Ω_m < 1` and every `z`, `luminosity_distance` returns
`3000 * (z + 1) * (eta(0) - eta(z))`, the first `conformal_time` evaluation
being at redshift `0` regardless of the requested redshift. -/
theorem luminosity_distance_formula (self : SNExercise) (z Ω : ℝ)
    (h0 : 0 < Ω) (h1 : Ω < 1) :
    self.luminosity_distance (some z) (some Ω) =
      Except.ok (3000 * (z + 1) * (etaSpec 0 Ω - etaSpec z Ω)) := by
  rw [luminosity_distance_ok self z Ω h0.ne']; rfl

/-- Witness for C5 at `z = 3`, `Ω_m = 1/2`. -/
theorem luminosity_distance_formula_wit :
    (0 : ℝ) < 1 / 2 ∧ (1 / 2 : ℝ) < 1 ∧
    sn0.luminosity_distance (some 3) (some (1 / 2)) =
      Except.ok (3000 * (3 + 1) * (etaSpec 0 (1 / 2) - etaSpec 3 (1 / 2))) :=
  ⟨by norm_num, by norm_num,
    luminosity_distance_formula sn0 3 (1 / 2) (by norm_num) (by norm_num)⟩

/-- C9: for `0 < Ω_m < 1`, `luminosity_distance` at redshift `0` returns
exactly `0`, the two `conformal_time` evaluations coinciding. -/
theorem luminosity_distance_at_zero (self : SNExercise) (Ω : ℝ)
    (h0 : 0 < Ω) (h1 : Ω < 1) :
    self.luminosity_distance (some 0) (some Ω) = Except.ok 0 := by
  rw [luminosity_distance_ok self 0 Ω h0.ne']
  norm_num [dLSpec]

/-- Witness for C9 at `Ω_m = 1/2`. -/
theorem luminosity_distance_at_zero_wit :
    (0 : ℝ) < 1 / 2 ∧ (1 / 2 : ℝ) < 1 ∧
    sn0.luminosity_distance (some 0) (some (1 / 2)) = Except.ok 0 :=
  ⟨by norm_num, by norm_num,
    luminosity_distance_at_zero sn0 (1 / 2) (by norm_num) (by norm_num)⟩

/-- C6: for `0 < Ω_m < 1`, `h > 0` and a strictly positive luminosity
distance, `distance_modulus` returns `25 - 5 log10 h + 5 log10 d_L`. -/
theorem distance_modulus_formula (self : SNExercise) (z Ω h : ℝ)
    (h0 : 0 < Ω) (h1 : Ω < 1) (hh : 0 < h) (hd : 0 < dLSpec z Ω) :
    self.distance_modulus (some z) (some Ω) (some h) =
      Except.ok (25 - 5 * Real.logb 10 h + 5 * Real.logb 10 (dLSpec z Ω)) := by
  simp only [SNExercise.distance_modulus, Option.getD_some,
    luminosity_distance_ok self z Ω h0.ne']
  rw [if_neg (not_le.2 hd)]

/-- C2: `distance_modulus` raises the invalid-distance `ValueError` exactly
when some element of the computed luminosity distance is `≤ 0`, and the
guard behaves identically on a scalar redshift and on an array of
redshifts. -/
theorem distance_modulus_nonpos_guard (self : SNExercise) (zs : List ℝ)
    (z Ω h : ℝ) (h0 : 0 < Ω) (h1 : Ω < 1) :
    (self.distance_modulus_list zs (some Ω) (some h) =
        Except.error "All luminosity distances must be positive for valid log computation." ↔
      ∃ w ∈ zs, dLSpec w Ω ≤ 0) ∧
    (self.distance_modulus (some z) (some Ω) (some h) =
        Except.error "All luminosity distances must be positive for valid log computation." ↔
      dLSpec z Ω ≤ 0) := by
  constructor
  · simp only [SNExercise.distance_modulus_list, Option.getD_some,
      luminosity_distance_list_ok self zs Ω h0.ne']
    by_cases hc : ∃ d ∈ zs.map (fun w => dLSpec w Ω), d ≤ 0
    · rw [if_pos hc]
      constructor
      · intro _
        obtain ⟨d, hd, hle⟩ := hc
        obtain ⟨w, hw, rfl⟩ := List.mem_map.1 hd
        exact ⟨w, hw, hle⟩
      · intro _; rfl
    · rw [if_neg hc]
      constructor
      · intro habs; exact absurd habs (by simp)
      · rintro ⟨w, hw, hle⟩
        exact absurd ⟨dLSpec w Ω, List.mem_map_of_mem _ hw, hle⟩ hc
  · simp only [SNExercise.distance_modulus, Option.getD_some,
      luminosity_distance_ok self z Ω h0.ne']
    by_cases hc : dLSpec z Ω ≤ 0
    · rw [if_pos hc]; simp [hc]
    · rw [if_neg hc]; simp [hc]

/-! Sign and monotonicity analysis of the conformal-time pipeline, used for
the claims about the sign of the luminosity distance and its growth in `z`. -/

/-- The conformal-time multiplicand rewritten as a polynomial in `u = 1 + z`
(so `a = 1 / u` and `a^-k = u^k`). -/
noncomputable def Mpoly (s u : ℝ) : ℝ :=
  u ^ 4 - 0.1540 * s * u ^ 3 + 0.4304 * s ^ 2 * u ^ 2 +
    0.19097 * s ^ 3 * u + 0.066941 * s ^ 4

/-- Away from the `z = -1` singularity, `etaSpec` is
`2 * sqrt(s^3 + 1) * (Mpoly s (1 + z))^(-1/8)`. -/
theorem etaSpec_eq_Mpoly (z Ω : ℝ) (hz : (1 : ℝ) + z ≠ 0) :
    etaSpec z Ω =
      2 * Real.sqrt (sval Ω ^ 3 + 1) * Mpoly (sval Ω) (1 + z) ^ (-(1 : ℝ) / 8) := by
  have hbase : 1 / (1 / (1 + z)) ^ 4 - 0.1540 * sval Ω / (1 / (1 + z)) ^ 3 +
      0.4304 * sval Ω ^ 2 / (1 / (1 + z)) ^ 2 +
      0.19097 * sval Ω ^ 3 / (1 / (1 + z)) +
      0.066941 * sval Ω ^ 4 = Mpoly (sval Ω) (1 + z) := by
    unfold Mpoly
    field_simp
  simp only [etaSpec]
  rw [← hbase]

/-- The multiplicand polynomial is positive whenever `s > 0` and `u > 0`. -/
theorem Mpoly_pos (s u : ℝ) (hs : 0 < s) (hu : 0 < u) : 0 < Mpoly s u := by
  unfold Mpoly
  nlinarith [sq_nonneg (u * u - s * u), pow_pos hu 4, pow_pos hs 4,
    mul_pos (mul_pos hs hs) (mul_pos hu hu),
    mul_pos (mul_pos (mul_pos hs hs) hs) hu]

/-- The multiplicand polynomial is strictly increasing in `u` on `(0, ∞)`
for every `s > 0`. -/
theorem Mpoly_strict_mono (s u₁ u₂ : ℝ) (hs : 0 < s) (h1 : 0 < u₁)
    (h12 : u₁ < u₂) : Mpoly s u₁ < Mpoly s u₂ := by
  have h2 : 0 < u₂ := h1.trans h12
  have key : Mpoly s u₂ - Mpoly s u₁ =
      (u₂ - u₁) * ((u₂ ^ 3 + u₂ ^ 2 * u₁ + u₂ * u₁ ^ 2 + u₁ ^ 3)
        - 0.1540 * s * (u₂ ^ 2 + u₂ * u₁ + u₁ ^ 2)
        + 0.4304 * s ^ 2 * (u₂ + u₁) + 0.19097 * s ^ 3) := by
    unfold Mpoly; ring
  have hbracket : 0 < (u₂ ^ 3 + u₂ ^ 2 * u₁ + u₂ * u₁ ^ 2 + u₁ ^ 3)
        - 0.1540 * s * (u₂ ^ 2 + u₂ * u₁ + u₁ ^ 2)
        + 0.4304 * s ^ 2 * (u₂ + u₁) + 0.19097 * s ^ 3 := by
    nlinarith [mul_nonneg h2.le (sq_nonneg (u₂ - s)),
      mul_nonneg h1.le (sq_nonneg (u₁ - s)),
      mul_nonneg h1.le (sq_nonneg (u₂ - s)),
      pow_pos hs 3, pow_pos h1 3, pow_pos h2 3,
      mul_pos (mul_pos h2 h2) h1, mul_pos (mul_pos h2 h1) h1,
      mul_pos (mul_pos hs hs) h2, mul_pos (mul_pos hs hs) h1]
  nlinarith [mul_pos (sub_pos.2 h12) hbracket]

/-- `sval` is positive for `Ω_m ∈ (0, 1)`. -/
theorem sval_pos (Ω : ℝ) (h0 : 0 < Ω) (h1 : Ω < 1) : 0 < sval Ω :=
  Real.rpow_pos_of_pos (div_pos (by linarith) h0) _

/-- At `Ω_m = 1/2` the density ratio is `1`, so `s = 1` exactly. -/
theorem sval_half : sval (1 / 2) = 1 := by
  unfold sval
  rw [show (1 - (1 : ℝ) / 2) / ((1 : ℝ) / 2) = 1 by norm_num, Real.one_rpow]

/-- `etaSpec` is strictly decreasing in `z` on `(-1, ∞)` whenever `sval Ω > 0`. -/
theorem etaSpec_lt (Ω z₁ z₂ : ℝ) (hs : 0 < sval Ω) (h1 : 0 < 1 + z₁)
    (h12 : z₁ < z₂) : etaSpec z₂ Ω < etaSpec z₁ Ω := by
  have h2 : (0 : ℝ) < 1 + z₂ := by linarith
  rw [etaSpec_eq_Mpoly z₁ Ω h1.ne', etaSpec_eq_Mpoly z₂ Ω h2.ne']
  have hM1 : 0 < Mpoly (sval Ω) (1 + z₁) := Mpoly_pos _ _ hs h1
  have hMlt : Mpoly (sval Ω) (1 + z₁) < Mpoly (sval Ω) (1 + z₂) :=
    Mpoly_strict_mono _ _ _ hs h1 (by linarith)
  have hC : 0 < 2 * Real.sqrt (sval Ω ^ 3 + 1) := by
    have hx : 0 < sval Ω ^ 3 + 1 := by positivity
    have := Real.sqrt_pos.2 hx
    linarith
  refine mul_lt_mul_of_pos_left ?_ hC
  rw [show (-(1 : ℝ) / 8) = -((1 : ℝ) / 8) by norm_num,
    Real.rpow_neg (hM1.trans hMlt).le, Real.rpow_neg hM1.le]
  exact inv_lt_inv_of_lt (Real.rpow_pos_of_pos hM1 _)
    (Real.rpow_lt_rpow hM1.le hMlt (by norm_num))

/-- With `Ω_m = 1/2`, the luminosity distance at `z = 1` is strictly positive. -/
theorem dLSpec_pos_at_one_half : 0 < dLSpec 1 (1 / 2) := by
  have hs : 0 < sval (1 / 2) := by rw [sval_half]; norm_num
  have h := etaSpec_lt (1 / 2) 0 1 hs (by norm_num) (by norm_num)
  unfold dLSpec
  nlinarith [h]

/-- With `Ω_m = 1/2`, the luminosity distance at `z = -1/2` is nonpositive. -/
theorem dLSpec_nonpos_at_neg_half : dLSpec (-(1 / 2)) (1 / 2) ≤ 0 := by
  have hs : 0 < sval (1 / 2) := by rw [sval_half]; norm_num
  have h := etaSpec_lt (1 / 2) (-(1 / 2)) 0 hs (by norm_num) (by norm_num)
  unfold dLSpec
  nlinarith [h]

/-- Witness for C6 at `z = 1`, `Ω_m = 1/2`, `h = 0.7`, where the luminosity
distance is strictly positive. -/
theorem distance_modulus_formula_wit :
    (0 : ℝ) < 1 / 2 ∧ (1 / 2 : ℝ) < 1 ∧ (0 : ℝ) < 7 / 10 ∧
    0 < dLSpec 1 (1 / 2) ∧
    sn0.distance_modulus (some 1) (some (1 / 2)) (some (7 / 10)) =
      Except.ok (25 - 5 * Real.logb 10 (7 / 10) +
        5 * Real.logb 10 (dLSpec 1 (1 / 2))) :=
  ⟨by norm_num, by norm_num, by norm_num, dLSpec_pos_at_one_half,
    distance_modulus_formula sn0 1 (1 / 2) (7 / 10) (by norm_num) (by norm_num)
      (by norm_num) dLSpec_pos_at_one_half⟩

/-- Witness for C2: the array `[-1/2, 1]` yields one negative and one positive
luminosity distance under `Ω_m = 1/2`, and `distance_modulus` raises. -/
theorem distance_modulus_nonpos_guard_wit :
    sn0.distance_modulus_list [-(1 / 2), 1] (some (1 / 2)) (some (7 / 10)) =
      Except.error "All luminosity distances must be positive for valid log computation." :=
  ((distance_modulus_nonpos_guard sn0 [-(1 / 2), 1] 0 (1 / 2) (7 / 10)
      (by norm_num) (by norm_num)).1).mpr
    ⟨-(1 / 2), by simp, dLSpec_nonpos_at_neg_half⟩

/-- C10: for fixed `Ω_m = 0.3`, the luminosity distance is strictly increasing
in the redshift over `[0, 5]`: the two calls succeed with the closed-form
values and the value at `z₁` is smaller than the value at `z₂`. -/
theorem luminosity_distance_strict_mono (self : SNExercise) (z₁ z₂ : ℝ)
    (h1 : 0 ≤ z₁) (h12 : z₁ < z₂) (h2 : z₂ ≤ 5) :
    self.luminosity_distance (some z₁) (some (3 / 10)) =
      Except.ok (dLSpec z₁ (3 / 10)) ∧
    self.luminosity_distance (some z₂) (some (3 / 10)) =
      Except.ok (dLSpec z₂ (3 / 10)) ∧
    dLSpec z₁ (3 / 10) < dLSpec z₂ (3 / 10) := by
  have hs : 0 < sval (3 / 10) := sval_pos _ (by norm_num) (by norm_num)
  refine ⟨luminosity_distance_ok self z₁ _ (by norm_num),
    luminosity_distance_ok self z₂ _ (by norm_num), ?_⟩
  have hη12 : etaSpec z₂ (3 / 10) < etaSpec z₁ (3 / 10) :=
    etaSpec_lt _ z₁ z₂ hs (by linarith) h12
  have hΔ1 : 0 ≤ etaSpec 0 (3 / 10) - etaSpec z₁ (3 / 10) := by
    rcases eq_or_lt_of_le h1 with h | h
    · rw [← h]; simp
    · have := etaSpec_lt (3 / 10) 0 z₁ hs (by norm_num) h
      linarith
  have hΔ2 : 0 < etaSpec 0 (3 / 10) - etaSpec z₂ (3 / 10) := by
    have := etaSpec_lt (3 / 10) 0 z₂ hs (by norm_num) (by linarith)
    linarith
  unfold dLSpec
  nlinarith [mul_pos (show (0 : ℝ) < z₂ - z₁ by linarith) hΔ2,
    mul_nonneg (show (0 : ℝ) ≤ z₁ + 1 by linarith)
      (show (0 : ℝ) ≤ (etaSpec 0 (3 / 10) - etaSpec z₂ (3 / 10)) -
        (etaSpec 0 (3 / 10) - etaSpec z₁ (3 / 10)) by linarith)]

/-- Witness for C10 at `z₁ = 1 < z₂ = 2` inside `[0, 5]`. -/
theorem luminosity_distance_strict_mono_wit :
    (0 : ℝ) ≤ 1 ∧ (1 : ℝ) < 2 ∧ (2 : ℝ) ≤ 5 ∧
    sn0.luminosity_distance (some 1) (some (3 / 10)) =
      Except.ok (dLSpec 1 (3 / 10)) ∧
    dLSpec 1 (3 / 10) < dLSpec 2 (3 / 10) :=
  ⟨by norm_num, by norm_num, by norm_num,
    (luminosity_distance_strict_mono sn0 1 2 (by norm_num) (by norm_num)
      (by norm_num)).1,
    (luminosity_distance_strict_mono sn0 1 2 (by norm_num) (by norm_num)
      (by norm_num)).2.2⟩
